import Mathlib

/-!
Shallow embedding of src/backend/main.py (a FastAPI media-download service)
and verification of the claims about it.

The service delegates downloading to the external yt_dlp library; the
embedding models the option dictionaries the handlers build (translated
literally), and abstracts each external library invocation as an oracle
value describing its observable outcome (raised with a message, or
completed leaving files on disk).
-/

namespace Backend

/-- Generic HTTP handler outcome: a normal response body, or a raised
HTTPException with a status code and a detail string. -/
inductive HttpOut (α : Type) where
  | body (a : α)
  | httpError (status : Nat) (detail : String)
deriving DecidableEq, Repr

/-- Is the outcome a normal (success-status) response body? -/
def HttpOut.isBody : HttpOut α → Bool
  | .body _ => true
  | .httpError _ _ => false

/-- DOWNLOAD_DIR constant from main.py. -/
def DOWNLOAD_DIR : String := "temp_downloads"

/-- QUALITY_MAP from main.py: the static dict from video height to a
human-readable bitrate-range label, modelled as an association list with
the same eight entries in the same order; lookup is List.lookup. -/
def QUALITY_MAP : List (Nat × String) :=
  [ (2160, "2160p (4K): 256–512 kbps"),
    (1440, "1440p (2K): 256–512 kbps"),
    (1080, "1080p: 192–384 kbps"),
    (720, "720p: 192–384 kbps"),
    (480, "480p: 128–192 kbps"),
    (360, "360p: 64–128 kbps"),
    (240, "240p: 48–64 kbps"),
    (144, "144p: 24–48 kbps") ]

/-- One entry of the postprocessors list in the audio branch of the
option dictionaries (key, preferredcodec, preferredquality). -/
structure AudioPostprocessor where
  key : String
  preferredcodec : String
  preferredquality : String
deriving DecidableEq, Repr

/-- The fields of the ydl_opts dictionary that the handlers vary
(outtmpl, format, postprocessors, merge_output_format); the constant
fields quiet, no_warnings and ffmpeg_location are omitted. -/
structure YdlOpts where
  outtmpl : String
  fmt : String
  postprocessors : List AudioPostprocessor
  merge_output_format : Option String
deriving DecidableEq, Repr

/-- Option-building part of download_media (main.py lines 90-121): given
is_audio, the quality string and the generated run_id, build ydl_opts.
The Python f-strings are modelled by string concatenation. -/
def download_media_opts (is_audio : Bool) (quality : String) (run_id : String) : YdlOpts :=
  let output_template := DOWNLOAD_DIR ++ "/" ++ run_id ++ "/%(title)s.%(ext)s"
  if is_audio then
    { outtmpl := output_template,
      fmt := "bestaudio[abr<=" ++ quality ++ "]/bestaudio/best",
      postprocessors := [⟨"FFmpegExtractAudio", "mp3", quality⟩],
      merge_output_format := none }
  else
    { outtmpl := output_template,
      fmt := "bestvideo[height<=" ++ quality ++ "]+bestaudio/best",
      postprocessors := [],
      merge_output_format := some "mp4" }

/-- Option-building part of download_batch (main.py lines 171-190): the
request carries a type string (audio selects the audio branch, anything
else the video branch) and a quality string. -/
def download_batch_opts (reqType : String) (quality : String) (run_id : String) : YdlOpts :=
  let batch_dir := DOWNLOAD_DIR ++ "/" ++ run_id
  if reqType = "audio" then
    { outtmpl := batch_dir ++ "/%(title)s.%(ext)s",
      fmt := "bestaudio[abr<=" ++ quality ++ "]/bestaudio/best",
      postprocessors := [⟨"FFmpegExtractAudio", "mp3", quality⟩],
      merge_output_format := none }
  else
    { outtmpl := batch_dir ++ "/%(title)s.%(ext)s",
      fmt := "bestvideo[height<=" ++ quality ++ "]+bestaudio/best",
      postprocessors := [],
      merge_output_format := some "mp4" }

/-- One format entry of the metadata dict returned by the external
library, restricted to the keys the info endpoint reads: vcodec and
height. A missing key is none; Python truthiness of a present height is
height different from 0. -/
structure Format where
  vcodec : Option String
  height : Option Nat
deriving DecidableEq, Repr

/-- The metadata dict of a single video: its formats list. -/
structure VideoInfo where
  formats : List Format
deriving DecidableEq, Repr

/-- The per-format filter of get_video_info (main.py lines 62-67): a
format contributes its height when vcodec is not the string none, the
height is present and truthy, and the height is a key of QUALITY_MAP. -/
def qualHeight (f : Format) : Option Nat :=
  match f.height with
  | none => none
  | some h =>
      if f.vcodec ≠ some "none" ∧ h ≠ 0 ∧ (QUALITY_MAP.lookup h).isSome = true
      then some h else none

/-- get_video_info lines 62-70: collect the set of contributing heights,
sort descending, keep at most five. The Python set is modelled by dedup
and sorted(reverse=True) by an insertion sort along the ge relation; on
the duplicate-free collection the result is the same list. -/
def sorted_heights (formats : List Format) : List Nat :=
  (List.insertionSort (fun a b => a ≥ b) (formats.filterMap qualHeight).dedup).take 5

/-- A quality option object sent to the frontend: value and label. -/
structure QOpt where
  value : Nat
  label : String
deriving DecidableEq, Repr

/-- The default video option of get_video_info line 75. -/
def defaultVideoOption : QOpt := ⟨720, "720p (Default Best)"⟩

/-- get_video_info lines 72-76: pair each selected height with its
QUALITY_MAP label (the subscript QUALITY_MAP[h] never fails because every
selected height is a key; it is modelled by lookup with a dummy default),
and fall back to the single default option when the list is empty. -/
def video_options (info : VideoInfo) : List QOpt :=
  let opts := (sorted_heights info.formats).map
    (fun h => QOpt.mk h ((QUALITY_MAP.lookup h).getD ""))
  if opts.isEmpty then [defaultVideoOption] else opts

/-- get_video_info lines 79-84: the hard-coded audio bitrate options. -/
def audio_options : List QOpt :=
  [ ⟨320, "320 kbps (Studio Quality)"⟩,
    ⟨192, "192 kbps (High Quality)"⟩,
    ⟨128, "128 kbps (Standard Quality)"⟩,
    ⟨64, "64 kbps (Low Quality - Voice only)"⟩ ]

/-- Body of the JSON object returned by the info endpoint: the success
shape carries status success with the two option lists, the error shape
carries status error with a message. -/
inductive InfoResponse where
  | success (video_options : List QOpt) (audio_options : List QOpt)
  | error (message : String)
deriving DecidableEq, Repr

/-- get_video_info (main.py lines 51-88): the external fetch is abstracted
as its outcome (the metadata dict, or the raised exception message). Both
branches return a normal response body; no HTTPException is raised. -/
def get_video_info (fetch : Except String VideoInfo) : HttpOut InfoResponse :=
  match fetch with
  | .error e => .body (.error e)
  | .ok info => .body (.success (video_options info) audio_options)

/-- The audio_options list of a success response, when the outcome is
one. -/
def response_audio_options : HttpOut InfoResponse → Option (List QOpt)
  | .body (.success _ a) => some a
  | _ => none

/-- Observable outcome of one ydl.download invocation inside
download_media, together with the state it leaves behind: either it
raised with a message, or it returned normally; in both cases dirFiles
records the run directory afterwards (none when the library never created
it, some ls when it exists and lists ls). -/
inductive LibRun where
  | raises (msg : String) (dirFiles : Option (List String))
  | completes (dirFiles : Option (List String))
deriving DecidableEq, Repr

/-- The run-directory state the library invocation leaves behind. -/
def libDirState : LibRun → Option (List String)
  | .raises _ d => d
  | .completes d => d

/-- Message of the FileNotFoundError raised by os.listdir when the run
directory was never created. -/
def listdir_missing_msg : String := "No such file or directory"

/-- Detail of the HTTPException raised on line 127 when the run directory
is empty, as stringified by the str conversion of HTTPException. -/
def empty_dir_msg : String := "500: Download failed."

/-- Execution part of download_media (main.py lines 123-127): run the
library, then list the run directory; raise when the listing fails or is
empty, otherwise return the first listed file. The result pairs the
raised-or-returned value with the run-directory state afterwards. -/
def download_media (beh : LibRun) : Except String String × Option (List String) :=
  match beh with
  | .raises msg d => (.error msg, d)
  | .completes none => (.error listdir_missing_msg, none)
  | .completes (some []) => (.error empty_dir_msg, some [])
  | .completes (some (f :: rest)) => (.ok f, some (f :: rest))

/-- download_audio (main.py lines 129-136): on success, schedule cleanup
of the run directory for after the response (modelled as the directory
being deleted, deletion succeeding) and return the file; on any exception
raise HTTPException 400 with the stringified exception as detail, with no
cleanup scheduled. The second component is the run-directory state after
the response completes and background tasks have run. -/
def download_audio (beh : LibRun) : HttpOut String × Option (List String) :=
  match download_media beh with
  | (.ok file, _) => (.body file, none)
  | (.error msg, d) => (.httpError 400 msg, d)

/-- download_video (main.py lines 138-145): identical to download_audio
except for the media type of the response, which is not modelled. -/
def download_video (beh : LibRun) : HttpOut String × Option (List String) :=
  match download_media beh with
  | (.ok file, _) => (.body file, none)
  | (.error msg, d) => (.httpError 400 msg, d)

/-- Kind of filesystem node a path points at. -/
inductive FsNode where
  | file
  | dir
deriving DecidableEq, Repr

/-- cleanup_file (main.py lines 42-47): try to delete the path (os.remove
for a file, shutil.rmtree for a directory, no-op otherwise); any exception
raised by the deletion is caught and only printed. Inputs: the node the
path points at, and the message of the exception the deletion raises, if
any. Output: the node afterwards and the printed log lines, inside Except
so that raising would be observable. -/
def cleanup_file (filepath : String) (node : Option FsNode)
    (raisedMsg : Option String) : Except String (Option FsNode × List String) :=
  match raisedMsg with
  | some e => .ok (node, ["Error cleaning up " ++ filepath ++ ": " ++ e])
  | none =>
      match node with
      | some .file => .ok (none, [])
      | some .dir => .ok (none, [])
      | none => .ok (none, [])

/-- ydl.download over a list of URLs (used by download_batch): the
library processes the URLs in order and raises at the first failing one;
lib gives the per-URL outcome. -/
def ydl_download (lib : String → Except String Unit) : List String → Except String Unit
  | [] => .ok ()
  | u :: rest =>
      match lib u with
      | .error e => .error e
      | .ok _ => ydl_download lib rest

/-- download_batch (main.py lines 169-204), execution part: run_batch
downloads every URL and only then archives the batch directory, so when
any URL raises no archive is produced; the handler maps an exception to
HTTPException 500 with the stringified exception as detail, and otherwise
returns the archive. The Bool records whether the archive file was
produced. -/
def download_batch (lib : String → Except String Unit) (urls : List String) :
    HttpOut String × Bool :=
  match ydl_download lib urls with
  | .error e => (.httpError 500 e, false)
  | .ok _ => (.body "Batch_Download.zip", true)

/-- One entry of the flat playlist returned by the external library for a
channel, restricted to the keys get_channel_info reads. -/
structure ChannelEntry where
  url : Option String
  id : Option String
  title : Option String
deriving DecidableEq, Repr

/-- The metadata dict returned for a channel: its title and entries. -/
structure ChannelInfo where
  title : Option String
  entries : List ChannelEntry
deriving DecidableEq, Repr

/-- URL selection of get_channel_info (main.py lines 160-162): take the
entry url when present and truthy, otherwise construct a watch URL from a
present truthy id, otherwise drop the entry. -/
def entry_url (e : ChannelEntry) : Option String :=
  match e.url with
  | some u =>
      if u ≠ "" then some u
      else match e.id with
        | some i => if i ≠ "" then some ("https://www.youtube.com/watch?v=" ++ i) else none
        | none => none
  | none =>
      match e.id with
      | some i => if i ≠ "" then some ("https://www.youtube.com/watch?v=" ++ i) else none
      | none => none

/-- The title and URL pairs collected by get_channel_info lines 159-163. -/
def channel_videos (entries : List ChannelEntry) : List (String × String) :=
  entries.filterMap fun e =>
    match entry_url e with
    | some u => some (e.title.getD "Unknown Title", u)
    | none => none

/-- Body of the JSON object returned by the channel-info endpoint. -/
inductive ChannelResponse where
  | success (channel_name : String) (videos : List (String × String))
  | error (message : String)
deriving DecidableEq, Repr

/-- get_channel_info (main.py lines 147-167): the URL normalisation
precedes the fetch and is absorbed into the abstracted fetch outcome.
Both branches return a normal response body; no HTTPException is
raised. -/
def get_channel_info (fetch : Except String ChannelInfo) : HttpOut ChannelResponse :=
  match fetch with
  | .error e => .body (.error e)
  | .ok info => .body (.success (info.title.getD "Channel") (channel_videos info.entries))

end Backend

/-- C1: for every quality string q, the format-selection expression passed
to the external library embeds q unmodified: audio gets exactly
bestaudio[abr<=q]/bestaudio/best (and q is the postprocessor
preferredquality), video gets exactly bestvideo[height<=q]+bestaudio/best,
in single downloads and batch downloads alike. -/
theorem Backend.format_embeds_quality (q run_id : String) :
    (Backend.download_media_opts true q run_id).fmt
        = "bestaudio[abr<=" ++ q ++ "]/bestaudio/best" ∧
    (Backend.download_media_opts true q run_id).postprocessors.map
        Backend.AudioPostprocessor.preferredquality = [q] ∧
    (Backend.download_media_opts false q run_id).fmt
        = "bestvideo[height<=" ++ q ++ "]+bestaudio/best" ∧
    (Backend.download_batch_opts "audio" q run_id).fmt
        = "bestaudio[abr<=" ++ q ++ "]/bestaudio/best" ∧
    (Backend.download_batch_opts "audio" q run_id).postprocessors.map
        Backend.AudioPostprocessor.preferredquality = [q] ∧
    (Backend.download_batch_opts "video" q run_id).fmt
        = "bestvideo[height<=" ++ q ++ "]+bestaudio/best" := by
  refine ⟨rfl, rfl, rfl, ?_, ?_, ?_⟩ <;> simp [Backend.download_batch_opts]

/-- C7: the quality-map lookup returns a label exactly for the eight
defined heights 2160, 1440, 1080, 720, 480, 360, 240, 144, and no entry
for every other height. -/
theorem Backend.quality_map_domain (h : Nat) :
    (Backend.QUALITY_MAP.lookup h).isSome = true ↔
      (h = 2160 ∨ h = 1440 ∨ h = 1080 ∨ h = 720 ∨
       h = 480 ∨ h = 360 ∨ h = 240 ∨ h = 144) := by
  by_cases h1 : h = 2160
  · subst h1; decide
  by_cases h2 : h = 1440
  · subst h2; decide
  by_cases h3 : h = 1080
  · subst h3; decide
  by_cases h4 : h = 720
  · subst h4; decide
  by_cases h5 : h = 480
  · subst h5; decide
  by_cases h6 : h = 360
  · subst h6; decide
  by_cases h7 : h = 240
  · subst h7; decide
  by_cases h8 : h = 144
  · subst h8; decide
  have b1 := beq_eq_false_iff_ne.mpr h1
  have b2 := beq_eq_false_iff_ne.mpr h2
  have b3 := beq_eq_false_iff_ne.mpr h3
  have b4 := beq_eq_false_iff_ne.mpr h4
  have b5 := beq_eq_false_iff_ne.mpr h5
  have b6 := beq_eq_false_iff_ne.mpr h6
  have b7 := beq_eq_false_iff_ne.mpr h7
  have b8 := beq_eq_false_iff_ne.mpr h8
  simp [Backend.QUALITY_MAP, List.lookup, b1, b2, b3, b4, b5, b6, b7, b8,
    h1, h2, h3, h4, h5, h6, h7, h8]

/-- C8: the audio_options list emitted by the info endpoint is the same
fixed four-entry bitrate list for any two metadata results; it does not
depend on the source. -/
theorem Backend.audio_options_source_independent
    (i1 i2 : Backend.VideoInfo) :
    Backend.response_audio_options (Backend.get_video_info (.ok i1))
        = Backend.response_audio_options (Backend.get_video_info (.ok i2)) ∧
    Backend.response_audio_options (Backend.get_video_info (.ok i1))
        = some [ ⟨320, "320 kbps (Studio Quality)"⟩,
                 ⟨192, "192 kbps (High Quality)"⟩,
                 ⟨128, "128 kbps (Standard Quality)"⟩,
                 ⟨64, "64 kbps (Low Quality - Voice only)"⟩ ] :=
  ⟨rfl, rfl⟩

/-- C2 counterexample: a failed single download whose library invocation
left the run directory behind (here with one partial file) keeps the run
directory present after the response completes, because no cleanup task
is scheduled on the failure path. -/
theorem Backend.failed_download_rundir_cex :
    (Backend.download_audio
        (.raises "ERROR: unable to download video data" (some ["clip.part"]))).2
      ≠ none := by
  simp [Backend.download_audio, Backend.download_media]

/-- C2 amended: after a successful single download (audio or video) the
run directory is absent; after a failed one no cleanup is scheduled, so
the run directory stays exactly as the library invocation left it, and in
particular remains whenever the library created it. -/
theorem Backend.download_rundir_after_response (beh : Backend.LibRun) :
    (Backend.download_audio beh).2
        = (if (Backend.download_audio beh).1.isBody then none
           else Backend.libDirState beh) ∧
    (Backend.download_video beh).2
        = (if (Backend.download_video beh).1.isBody then none
           else Backend.libDirState beh) := by
  cases beh with
  | raises m d => exact ⟨rfl, rfl⟩
  | completes d =>
      cases d with
      | none => exact ⟨rfl, rfl⟩
      | some l => cases l <;> exact ⟨rfl, rfl⟩

/-- Helper for C3: when some URL of the list fails, ydl_download raises,
and its message is the message of a failing URL of the list. -/
theorem Backend.ydl_download_error_of_mem (lib : String → Except String Unit) :
    ∀ urls : List String, (∃ u ∈ urls, ∃ e, lib u = Except.error e) →
      ∃ msg, Backend.ydl_download lib urls = Except.error msg ∧
        ∃ u ∈ urls, lib u = Except.error msg := by
  intro urls
  induction urls with
  | nil => rintro ⟨u, hu, -⟩; cases hu
  | cons a t ih =>
      rintro ⟨u, hu, e, he⟩
      cases hla : lib a with
      | error e0 =>
          exact ⟨e0, by simp [Backend.ydl_download, hla], a, List.mem_cons_self a t, hla⟩
      | ok v =>
          have ht : ∃ w ∈ t, ∃ e, lib w = Except.error e := by
            rcases List.mem_cons.mp hu with rfl | hmem
            · rw [hla] at he; cases he
            · exact ⟨u, hmem, e, he⟩
          rcases ih ht with ⟨msg, hrun, w, hw, hlw⟩
          exact ⟨msg, by simp [Backend.ydl_download, hla, hrun],
            w, List.mem_cons_of_mem a hw, hlw⟩

/-- C3: for every batch request whose URL list contains a URL on which
the library raises, the batch endpoint raises HTTPException 500 carrying
the underlying message, and no archive file is produced or returned. -/
theorem Backend.batch_error_aborts (lib : String → Except String Unit)
    (urls : List String) (h : ∃ u ∈ urls, ∃ e, lib u = Except.error e) :
    ∃ msg, (∃ u ∈ urls, lib u = Except.error msg) ∧
      Backend.download_batch lib urls = (.httpError 500 msg, false) := by
  rcases Backend.ydl_download_error_of_mem lib urls h with ⟨msg, hrun, hmem⟩
  exact ⟨msg, hmem, by simp [Backend.download_batch, hrun]⟩

/-- Witness for C3 at a concrete one-URL batch whose library invocation
raises. -/
theorem Backend.batch_error_aborts_witness :
    ∃ msg, (∃ u ∈ ["https://bad.example/xyz"],
        (fun _ : String => (Except.error "ERROR: Unsupported URL" : Except String Unit)) u
          = Except.error msg) ∧
      Backend.download_batch
          (fun _ => (Except.error "ERROR: Unsupported URL" : Except String Unit))
          ["https://bad.example/xyz"]
        = (.httpError 500 msg, false) :=
  Backend.batch_error_aborts _ _
    ⟨"https://bad.example/xyz", List.mem_singleton.mpr rfl, "ERROR: Unsupported URL", rfl⟩

/-- C4: when the external library raises with any message, the single
download handlers (audio and video) surface it as HTTPException 400 whose
detail is exactly the raw message, with no differentiation by cause. -/
theorem Backend.library_error_maps_to_400 (msg : String) (d : Option (List String)) :
    (Backend.download_audio (.raises msg d)).1 = .httpError 400 msg ∧
    (Backend.download_video (.raises msg d)).1 = .httpError 400 msg :=
  ⟨rfl, rfl⟩

/-- C9: for every path, node kind and deletion outcome, cleanup_file never
propagates an exception: it always returns normally, and when the deletion
raised it only logs the message. -/
theorem Backend.cleanup_file_swallows (p : String) (node : Option Backend.FsNode)
    (raisedMsg : Option String) :
    Backend.cleanup_file p node raisedMsg = Except.ok
      (match raisedMsg with
       | some e => (node, ["Error cleaning up " ++ p ++ ": " ++ e])
       | none => (none, [])) := by
  cases raisedMsg with
  | some e => rfl
  | none =>
      cases node with
      | none => rfl
      | some n => cases n <;> rfl

/-- C10: when the external library raises, the info endpoint and the
channel-info endpoint do not propagate the exception and do not raise an
HTTP error: each returns a normal response body whose status is error and
whose message is the raised message. -/
theorem Backend.info_endpoints_never_http_error (msg : String) :
    Backend.get_video_info (Except.error msg)
        = .body (.error msg) ∧
    Backend.get_channel_info (Except.error msg)
        = .body (.error msg) :=
  ⟨rfl, rfl⟩

/-- Helper: a height contributed by some format is a key of QUALITY_MAP. -/
theorem Backend.qualHeight_lookup {f : Backend.Format} {n : Nat}
    (h : Backend.qualHeight f = some n) :
    (Backend.QUALITY_MAP.lookup n).isSome = true := by
  unfold Backend.qualHeight at h
  split at h
  · cases h
  · split_ifs at h with hc
    injection h with h0
    subst h0
    exact hc.2.2

/-- C6: when no format of the metadata result has a height that is a key
of the static quality map, the info endpoint emits exactly the single
default video option with value 720 and label 720p (Default Best). -/
theorem Backend.no_mapped_height_default (info : Backend.VideoInfo)
    (h : ∀ f ∈ info.formats, ∀ n, f.height = some n →
        Backend.QUALITY_MAP.lookup n = none) :
    Backend.video_options info = [Backend.defaultVideoOption] := by
  have hfm : info.formats.filterMap Backend.qualHeight = [] := by
    rw [List.filterMap_eq_nil_iff]
    intro f hf
    unfold Backend.qualHeight
    split
    · rfl
    · next m hm =>
        rw [h f hf m hm]
        simp
  simp [Backend.video_options, Backend.sorted_heights, hfm]

/-- Witness for C6 at a concrete metadata result whose only format has a
height outside the quality map. -/
theorem Backend.no_mapped_height_default_witness :
    Backend.video_options (Backend.VideoInfo.mk [⟨some "avc1", some 999⟩])
      = [Backend.defaultVideoOption] :=
  Backend.no_mapped_height_default _ (by
    intro f hf n hn
    simp only [List.mem_singleton] at hf
    subst hf
    injection hn with h0
    subst h0
    rfl)

/-- C5 counterexample: at a metadata result with an empty formats list no
format contributes a height, yet video_options is the nonempty default
list rather than the empty list of mapped qualifying heights. -/
theorem Backend.video_options_claim_cex :
    (Backend.VideoInfo.mk []).formats.filterMap Backend.qualHeight = [] ∧
    Backend.video_options (Backend.VideoInfo.mk [])
        = [Backend.defaultVideoOption] ∧
    Backend.video_options (Backend.VideoInfo.mk []) ≠ [] := by
  refine ⟨rfl, rfl, ?_⟩
  decide

/-- C5 amended: for every metadata result with at least one contributing
format, video_options lists exactly the distinct contributing heights
(video codec present, truthy height, height a key of the quality map),
sorted strictly descending, truncated to at most five entries, each
paired with its quality-map label; the single default option appears only
when there is no contributing format. -/
theorem Backend.video_options_characterization (info : Backend.VideoInfo)
    (hne : info.formats.filterMap Backend.qualHeight ≠ []) :
    ∃ L : List Nat,
      L.Pairwise (fun a b => a > b) ∧
      (∀ n, n ∈ L ↔ ∃ f ∈ info.formats, Backend.qualHeight f = some n) ∧
      (Backend.video_options info).map Backend.QOpt.value = L.take 5 ∧
      (Backend.video_options info).length ≤ 5 ∧
      ∀ o ∈ Backend.video_options info,
        Backend.QUALITY_MAP.lookup o.value = some o.label := by
  classical
  set D := (info.formats.filterMap Backend.qualHeight).dedup with hD
  set L := List.insertionSort (fun a b => a ≥ b) D with hL
  have hperm : L.Perm D := List.perm_insertionSort _ D
  have hsorted : L.Sorted (fun a b => a ≥ b) := List.sorted_insertionSort _ D
  have hnodupD : D.Nodup := List.nodup_dedup _
  have hnodupL : L.Nodup := hperm.nodup_iff.mpr hnodupD
  have hgt : L.Pairwise (fun a b => a > b) := by
    have hand := List.Pairwise.and hsorted hnodupL
    exact hand.imp (fun hab => lt_of_le_of_ne hab.1 (Ne.symm hab.2))
  have hmem : ∀ n, n ∈ L ↔ ∃ f ∈ info.formats, Backend.qualHeight f = some n := by
    intro n
    rw [hperm.mem_iff, hD, List.mem_dedup, List.mem_filterMap]
  have hDne : D ≠ [] := by
    rw [hD, ne_eq, List.dedup_eq_nil]
    exact hne
  have hLne : L ≠ [] := by
    intro h0
    apply hDne
    rw [h0] at hperm
    exact hperm.symm.eq_nil
  have hsh : Backend.sorted_heights info.formats = L.take 5 := by
    rw [hL, hD]
    rfl
  have htne : L.take 5 ≠ [] := by
    cases hc : L with
    | nil => exact absurd hc hLne
    | cons a t => simp [hc]
  have hemp : ((L.take 5).map (fun h => Backend.QOpt.mk h
      ((Backend.QUALITY_MAP.lookup h).getD ""))).isEmpty ≠ true := by
    rw [ne_eq, List.isEmpty_iff, List.map_eq_nil_iff]
    exact htne
  have hvo : Backend.video_options info
      = (L.take 5).map (fun h => Backend.QOpt.mk h
          ((Backend.QUALITY_MAP.lookup h).getD "")) := by
    unfold Backend.video_options
    rw [hsh, if_neg hemp]
  refine ⟨L, hgt, hmem, ?_, ?_, ?_⟩
  · rw [hvo, List.map_map]
    have hid : (Backend.QOpt.value ∘ fun h => Backend.QOpt.mk h
        ((Backend.QUALITY_MAP.lookup h).getD "")) = id := by
      funext h
      rfl
    rw [hid, List.map_id]
  · rw [hvo]
    simp [List.length_map, List.length_take]
  · intro o ho
    rw [hvo] at ho
    rcases List.mem_map.mp ho with ⟨n, hn, rfl⟩
    have hnL : n ∈ L := List.take_subset 5 L hn
    have hsome : (Backend.QUALITY_MAP.lookup n).isSome = true := by
      rcases (hmem n).mp hnL with ⟨f, _, hq⟩
      exact Backend.qualHeight_lookup hq
    cases hl : Backend.QUALITY_MAP.lookup n with
    | none => rw [hl] at hsome; cases hsome
    | some s => simp [hl]

/-- Witness for the amended C5 at a concrete metadata result with one
contributing 720p format. -/
theorem Backend.video_options_characterization_witness :
    (Backend.VideoInfo.mk [⟨some "avc1", some 720⟩]).formats.filterMap
        Backend.qualHeight ≠ [] ∧
    ∃ L : List Nat,
      L.Pairwise (fun a b => a > b) ∧
      (∀ n, n ∈ L ↔ ∃ f ∈ (Backend.VideoInfo.mk [⟨some "avc1", some 720⟩]).formats,
          Backend.qualHeight f = some n) ∧
      (Backend.video_options (Backend.VideoInfo.mk [⟨some "avc1", some 720⟩])).map
          Backend.QOpt.value = L.take 5 ∧
      (Backend.video_options (Backend.VideoInfo.mk [⟨some "avc1", some 720⟩])).length ≤ 5 ∧
      ∀ o ∈ Backend.video_options (Backend.VideoInfo.mk [⟨some "avc1", some 720⟩]),
        Backend.QUALITY_MAP.lookup o.value = some o.label :=
  ⟨by decide, Backend.video_options_characterization _ (by decide)⟩
